import Mathlib

/-!
# Verification of the Conway Game of Life simulation core

Shallow embedding of `src/life_simulation.py`. The grid is an `N × N`
numpy array of cell values; we model it as a total function
`Nat → Nat → Nat` together with the dimension `N` (the Python code
obtains `N` from the array shape / the caller). Cell values are the two
scalar sentinels `ON = 255` (ALIVE) and `OFF = 0` (DEAD).

Python `%` on an `int` with a positive modulus agrees with `Int.emod`,
so wrapped indices such as `(i-1) % N` are embedded with `Int` arithmetic
and `Int.emod`, then converted back to `Nat`.
-/

namespace LifeSim

/-- `ON = 255`: the ALIVE sentinel (source line 27). -/
def ON : Nat := 255

/-- `OFF = 0`: the DEAD sentinel (source line 28). -/
def OFF : Nat := 0

/-- A grid: cell values indexed by row and column. The Python object is an
`N × N` numpy array; the operations below only ever read and write indices
in `[0, N)`, which the theorems make explicit. -/
def Grid : Type := Nat → Nat → Nat

/-- Build a grid from a row-major list of rows (indices outside the
list default to `OFF`); used for concrete test grids. -/
def gridOfRows (rows : List (List Nat)) : Grid :=
  fun i j => ((rows.getD i []).getD j OFF)

/-- Python `x % N` for an `Int` index `x` and positive `N`: `Int.emod`
yields the representative in `[0, N)`, converted back to `Nat`. -/
def wrap (N : Nat) (x : Int) : Nat := (x % (N : Int)).toNat

/-- The eight-neighbor sum with toroidal wrap, divided by 255
(source lines 60-63:
`total = int((grid[i,(j-1)%N] + ... + grid[(i+1)%N,(j+1)%N])/255)`).
For the non-negative integer cell values the Python float division
followed by `int` truncation is floor division, i.e. `Nat` division. -/
def neighborTotal (grid : Grid) (N : Nat) (i j : Nat) : Nat :=
  (grid i (wrap N ((j : Int) - 1)) + grid i (wrap N ((j : Int) + 1)) +
   grid (wrap N ((i : Int) - 1)) j + grid (wrap N ((i : Int) + 1)) j +
   grid (wrap N ((i : Int) - 1)) (wrap N ((j : Int) - 1)) +
   grid (wrap N ((i : Int) - 1)) (wrap N ((j : Int) + 1)) +
   grid (wrap N ((i : Int) + 1)) (wrap N ((j : Int) - 1)) +
   grid (wrap N ((i : Int) + 1)) (wrap N ((j : Int) + 1))) / 255

/-- The eight toroidally wrapped neighbor index pairs of `(i, j)`,
in the order the source sums them (source lines 60-63). -/
def neighborPositions (N : Nat) (i j : Nat) : List (Nat × Nat) :=
  [(i, wrap N ((j : Int) - 1)), (i, wrap N ((j : Int) + 1)),
   (wrap N ((i : Int) - 1), j), (wrap N ((i : Int) + 1), j),
   (wrap N ((i : Int) - 1), wrap N ((j : Int) - 1)),
   (wrap N ((i : Int) - 1), wrap N ((j : Int) + 1)),
   (wrap N ((i : Int) + 1), wrap N ((j : Int) - 1)),
   (wrap N ((i : Int) + 1), wrap N ((j : Int) + 1))]

/-- The number of ALIVE cells among the eight toroidal neighbor
positions, counted with multiplicity, following the spec's wording
("Count `total` = number of ALIVE cells among the 8 toroidal
neighbors"). Compared against the code's `neighborTotal`. -/
def countAliveNeighborsSpec (g : Grid) (N i j : Nat) : Nat :=
  ((neighborPositions N i j).filter (fun p => g p.1 p.2 == ON)).length

/-- One generation step (source lines 50-76). The source copies the grid
(`new_grid = grid.copy()`), then for each `i, j` in `range(N)` overwrites
`new_grid[i, j]` with `OFF` when the cell is `ON` and `total < 2` or
`total > 3`, and with `ON` when the cell is not `ON` and `total == 3`;
otherwise the copied value stands. All reads are from the original
`grid`. After the loop, `grid[:] = new_grid[:]`, so the resulting grid
contents are exactly `new_grid`; the animation bookkeeping
(`frame_num`, `img.set_data`) has no effect on the grid and is omitted. -/
def update (grid : Grid) (N : Nat) : Grid :=
  fun i j =>
    if i < N ∧ j < N then
      if grid i j = ON then
        if neighborTotal grid N i j < 2 ∨ neighborTotal grid N i j > 3 then OFF
        else grid i j
      else
        if neighborTotal grid N i j = 3 then ON
        else grid i j
    else grid i j

/-- A well-formed grid: every cell in the `N × N` domain holds one of
the two sentinel values. -/
def WellFormed (g : Grid) (N : Nat) : Prop :=
  ∀ i, i < N → ∀ j, j < N → g i j = ON ∨ g i j = OFF

instance (g : Grid) (N : Nat) : Decidable (WellFormed g N) := by
  unfold WellFormed; infer_instance

/-- The next state of one cell as the spec's §4.2 rule table writes it:
ALIVE with total < 2 dies, ALIVE with total 2 or 3 survives, ALIVE with
total > 3 dies, DEAD with total = 3 becomes ALIVE, DEAD otherwise stays
DEAD. Used for the refinement comparison with `update`. -/
def ruleNextSpec (s total : Nat) : Nat :=
  if s = ON then
    if total < 2 then OFF
    else if total ≤ 3 then ON
    else OFF
  else
    if total = 3 then ON else OFF

/-- The spec's fully buffered simultaneous step: every cell's next state
is computed solely from the current generation's values (spec §4.2).
Used for the refinement comparison with `update`. -/
def stepSpec (g : Grid) (N : Nat) : Grid :=
  fun i j =>
    if i < N ∧ j < N then ruleNextSpec (g i j) (countAliveNeighborsSpec g N i j)
    else g i j

/-- An unbuffered in-place cell-by-cell update over a list of cells:
each cell's rule is applied to the grid as already mutated by the
earlier cells. The spec demands the code NOT behave like this; it is
the foil for the same-generation-isolation claim. -/
def updateSeqAux (N : Nat) (cells : List (Nat × Nat)) (g : Grid) : Grid :=
  match cells with
  | [] => g
  | (i, j) :: rest =>
    let total := neighborTotal g N i j
    let v : Nat :=
      if g i j = ON then
        if total < 2 ∨ total > 3 then OFF else g i j
      else
        if total = 3 then ON else g i j
    updateSeqAux N rest (fun a b => if a = i ∧ b = j then v else g a b)

/-- Row-major list of all cells of the `N × N` domain. -/
def allCells (N : Nat) : List (Nat × Nat) :=
  (List.range N).flatMap (fun i => (List.range N).map (fun j => (i, j)))

/-- The unbuffered sequential update over the whole grid in row-major
order (the mutation order of the source's loops, but without the
`new_grid` buffer). -/
def updateSequential (g : Grid) (N : Nat) : Grid :=
  updateSeqAux N (allCells N) g

/-- The error taxonomy the spec's §7 names for the grid factory. -/
inductive LifeErr : Type
  | invalidDimension
  | invalidProbability
  | outOfBounds
deriving DecidableEq, Repr

/-- `random_grid(N)` (source lines 32-34):
`np.random.choice(vals, N*N, p=[0.2, 0.8]).reshape(N, N)` with
`vals = [ON, OFF]`. The function takes only the dimension `N`; the ON
probability is the fixed constant `0.2` and there is no validation of
any input. The random draw is abstracted as `draw : Nat → Bool` giving,
for each of the `N*N` independent samples in row-major order, whether
`np.random.choice` selected `ON`. The body raises nothing for any
`N ≥ 0`, hence always `Except.ok`. -/
def random_grid (N : Nat) (draw : Nat → Bool) : Except LifeErr Grid :=
  Except.ok (fun i j => if draw (i * N + j) then ON else OFF)

/-- The fixed 3×3 glider pattern (source lines 39-41):
`[[0, 0, 255], [255, 0, 255], [0, 255, 255]]`. -/
def glider : Grid :=
  gridOfRows [[0, 0, 255], [255, 0, 255], [0, 255, 255]]

/-- Result of a stamping call: the grid contents after the call together
with the error, if one was raised. -/
structure StampResult where
  err : Option LifeErr
  grid : Grid

/-- A 5×5 grid holding a horizontal blinker in its middle row: the
spec's example of a pattern on which an unbuffered in-place update
differs from the buffered one. -/
def blinker : Grid :=
  gridOfRows [[0, 0, 0, 0, 0], [0, 0, 0, 0, 0], [0, 255, 255, 255, 0],
              [0, 0, 0, 0, 0], [0, 0, 0, 0, 0]]

/-- A 5×5 grid with a single ALIVE cell at `(0, 0)`: the spec's
neighbor-wrap test grid. -/
def single5 : Grid :=
  gridOfRows [[255, 0, 0, 0, 0], [0, 0, 0, 0, 0], [0, 0, 0, 0, 0],
              [0, 0, 0, 0, 0], [0, 0, 0, 0, 0]]

/-- The all-DEAD grid. -/
def deadGrid : Grid := fun _ _ => OFF

/-- The all-ALIVE grid. -/
def fullGrid : Grid := fun _ _ => ON

/-- `add_glider(i, j, grid)` (source lines 37-42):
`grid[i:i+3, j:j+3] = glider`. When the 3×3 region lies inside the
`N × N` array the slice assignment writes the pattern and leaves all
other cells untouched. When `i+3 > N` or `j+3 > N` the numpy slice is
clipped to fewer than 3 rows or columns and assigning the 3×3 pattern
into it raises a broadcast `ValueError` before writing anything, so the
grid is unchanged; the error is the spec's `OutOfBounds`. `N` is the
array dimension `grid.shape[0]` carried explicitly. -/
def add_glider (i j : Nat) (g : Grid) (N : Nat) : StampResult :=
  if i + 3 ≤ N ∧ j + 3 ≤ N then
    { err := none
      grid := fun a b =>
        if i ≤ a ∧ a < i + 3 ∧ j ≤ b ∧ b < j + 3 then glider (a - i) (b - j)
        else g a b }
  else
    { err := some LifeErr.outOfBounds, grid := g }

/-! ## Helper lemmas -/

/-- A wrapped index is always in `[0, N)` for positive `N`. -/
theorem wrap_lt (N : Nat) (hN : 0 < N) (x : Int) : wrap N x < N := by
  unfold wrap
  have h0 : (0 : Int) < (N : Int) := by exact_mod_cast hN
  have h1 : x % (N : Int) < (N : Int) := Int.emod_lt_of_pos x h0
  have h2 : 0 ≤ x % (N : Int) := Int.emod_nonneg x (by omega)
  omega

/-- Every neighbor position of an in-bounds cell is in bounds. -/
theorem neighborPositions_bounds (N i j : Nat) (hi : i < N) (hj : j < N) :
    ∀ p ∈ neighborPositions N i j, p.1 < N ∧ p.2 < N := by
  have hN : 0 < N := Nat.lt_of_le_of_lt (Nat.zero_le i) hi
  intro p hp
  simp only [neighborPositions, List.mem_cons, List.not_mem_nil, or_false] at hp
  rcases hp with rfl | rfl | rfl | rfl | rfl | rfl | rfl | rfl <;>
    refine ⟨?_, ?_⟩ <;> dsimp only <;>
    first | exact hi | exact hj | exact wrap_lt N hN _

set_option maxHeartbeats 1600000 in
/-- The code's neighbor total agrees with the spec's count of ALIVE
cells among the 8 toroidal neighbor positions, on well-formed grids. -/
theorem neighborTotal_eq_spec (g : Grid) (N i j : Nat) (hwf : WellFormed g N)
    (hi : i < N) (hj : j < N) :
    neighborTotal g N i j = countAliveNeighborsSpec g N i j := by
  have hN : 0 < N := Nat.lt_of_le_of_lt (Nat.zero_le i) hi
  have w1 := hwf i hi _ (wrap_lt N hN ((j : Int) - 1))
  have w2 := hwf i hi _ (wrap_lt N hN ((j : Int) + 1))
  have w3 := hwf _ (wrap_lt N hN ((i : Int) - 1)) j hj
  have w4 := hwf _ (wrap_lt N hN ((i : Int) + 1)) j hj
  have w5 := hwf _ (wrap_lt N hN ((i : Int) - 1)) _ (wrap_lt N hN ((j : Int) - 1))
  have w6 := hwf _ (wrap_lt N hN ((i : Int) - 1)) _ (wrap_lt N hN ((j : Int) + 1))
  have w7 := hwf _ (wrap_lt N hN ((i : Int) + 1)) _ (wrap_lt N hN ((j : Int) - 1))
  have w8 := hwf _ (wrap_lt N hN ((i : Int) + 1)) _ (wrap_lt N hN ((j : Int) + 1))
  simp only [ON, OFF] at w1 w2 w3 w4 w5 w6 w7 w8
  rw [countAliveNeighborsSpec, ← List.countP_eq_length_filter]
  simp only [neighborTotal, neighborPositions, ON,
    List.countP_cons, List.countP_nil]
  rcases w1 with e1 | e1 <;> rcases w2 with e2 | e2 <;> rcases w3 with e3 | e3 <;>
    rcases w4 with e4 | e4 <;> rcases w5 with e5 | e5 <;> rcases w6 with e6 | e6 <;>
    rcases w7 with e7 | e7 <;> rcases w8 with e8 | e8 <;>
    rw [e1, e2, e3, e4, e5, e6, e7, e8] <;> decide

/-- On a well-formed grid the neighbor total is at most 8. -/
theorem neighborTotal_le_8 (g : Grid) (N i j : Nat) (hwf : WellFormed g N)
    (hi : i < N) (hj : j < N) : neighborTotal g N i j ≤ 8 := by
  have hN : 0 < N := Nat.lt_of_le_of_lt (Nat.zero_le i) hi
  have w1 := hwf i hi _ (wrap_lt N hN ((j : Int) - 1))
  have w2 := hwf i hi _ (wrap_lt N hN ((j : Int) + 1))
  have w3 := hwf _ (wrap_lt N hN ((i : Int) - 1)) j hj
  have w4 := hwf _ (wrap_lt N hN ((i : Int) + 1)) j hj
  have w5 := hwf _ (wrap_lt N hN ((i : Int) - 1)) _ (wrap_lt N hN ((j : Int) - 1))
  have w6 := hwf _ (wrap_lt N hN ((i : Int) - 1)) _ (wrap_lt N hN ((j : Int) + 1))
  have w7 := hwf _ (wrap_lt N hN ((i : Int) + 1)) _ (wrap_lt N hN ((j : Int) - 1))
  have w8 := hwf _ (wrap_lt N hN ((i : Int) + 1)) _ (wrap_lt N hN ((j : Int) + 1))
  simp only [ON, OFF] at w1 w2 w3 w4 w5 w6 w7 w8
  unfold neighborTotal
  refine le_trans (Nat.div_le_div_right ?_) (by norm_num : (2040 : Nat) / 255 ≤ 8)
  omega

/-- `update` at an in-bounds cell, written as the branch the source loop
takes. -/
theorem update_eq_rule (g : Grid) (N i j : Nat) (hi : i < N) (hj : j < N) :
    update g N i j =
      if g i j = ON then
        if neighborTotal g N i j < 2 ∨ neighborTotal g N i j > 3 then OFF
        else g i j
      else
        if neighborTotal g N i j = 3 then ON
        else g i j := by
  unfold update
  rw [if_pos ⟨hi, hj⟩]

/-- Every entry of the glider pattern grid is one of the two
sentinels. -/
theorem glider_vals : ∀ a b, glider a b = ON ∨ glider a b = OFF := by
  intro a b
  unfold glider gridOfRows
  rcases a with _ | _ | _ | a <;> rcases b with _ | _ | _ | b <;>
    simp [List.getD, ON, OFF]

/-- `update` keeps every cell at one of the two sentinel values. -/
theorem update_preserves_wf (g : Grid) (N : Nat) (hwf : WellFormed g N) :
    WellFormed (update g N) N := by
  intro i hi j hj
  rw [update_eq_rule g N i j hi hj]
  rcases hwf i hi j hj with h | h <;> rw [h] <;> split_ifs <;> decide

/-- `add_glider` keeps every cell at one of the two sentinel values. -/
theorem add_glider_preserves_wf (g : Grid) (N i j : Nat) (hwf : WellFormed g N) :
    WellFormed (add_glider i j g N).grid N := by
  intro a ha b hb
  unfold add_glider
  split
  · dsimp only
    split
    · exact glider_vals _ _
    · exact hwf a ha b hb
  · exact hwf a ha b hb

/-- A grid returned by `random_grid` is well-formed. -/
theorem random_grid_wf (N : Nat) (draw : Nat → Bool) (g : Grid)
    (h : random_grid N draw = Except.ok g) : WellFormed g N := by
  unfold random_grid at h
  injection h with h2
  rw [← h2]
  intro i _ j _
  by_cases hd : draw (i * N + j) <;> simp [hd]

/-- `update` agrees with the spec's fully buffered simultaneous step on
well-formed grids (helper shared by the claim theorems). -/
theorem update_eq_stepSpec (g : Grid) (N : Nat) (hwf : WellFormed g N) :
    ∀ i j, update g N i j = stepSpec g N i j := by
  intro i j
  by_cases hd : i < N ∧ j < N
  · obtain ⟨hi, hj⟩ := hd
    have ht := neighborTotal_eq_spec g N i j hwf hi hj
    rw [update_eq_rule g N i j hi hj]
    unfold stepSpec ruleNextSpec
    rw [if_pos (show i < N ∧ j < N from ⟨hi, hj⟩), ← ht]
    rcases hwf i hi j hj with h | h <;> rw [h]
    · rw [if_pos rfl]
      split_ifs <;> first | rfl | (exfalso; omega)
    · have hno : ¬(OFF = ON) := by decide
      rw [if_neg hno, if_neg hno]
  · unfold update stepSpec
    rw [if_neg hd, if_neg hd]

/-! ## Claim theorems -/

/-- C1: for every well-formed N×N grid and in-bounds cell `(i, j)`, the
neighbor total lies in `0..8` and `update` follows the rule table
exactly: an ALIVE cell stays ALIVE iff its total is 2 or 3 and
otherwise dies; a DEAD cell becomes ALIVE iff its total is exactly 3
and otherwise stays DEAD. -/
theorem rule_table (g : Grid) (N i j : Nat) (hwf : WellFormed g N)
    (hi : i < N) (hj : j < N) :
    neighborTotal g N i j ≤ 8 ∧
    (g i j = ON →
      update g N i j =
        if neighborTotal g N i j = 2 ∨ neighborTotal g N i j = 3 then ON
        else OFF) ∧
    (g i j = OFF →
      update g N i j =
        if neighborTotal g N i j = 3 then ON else OFF) := by
  refine ⟨neighborTotal_le_8 g N i j hwf hi hj, ?_, ?_⟩
  · intro h
    rw [update_eq_rule g N i j hi hj, if_pos h, h]
    split_ifs <;> first | rfl | (exfalso; omega)
  · intro h
    rw [update_eq_rule g N i j hi hj, if_neg (by rw [h]; decide), h]

/-- Witness for C1: the middle cell of the blinker is ALIVE with
neighbor total 2 and survives. -/
theorem rule_table_witness :
    (WellFormed blinker 5 ∧ (2 : Nat) < 5) ∧
    (neighborTotal blinker 5 2 2 ≤ 8 ∧
     (blinker 2 2 = ON →
       update blinker 5 2 2 =
         if neighborTotal blinker 5 2 2 = 2 ∨ neighborTotal blinker 5 2 2 = 3
         then ON else OFF) ∧
     (blinker 2 2 = OFF →
       update blinker 5 2 2 =
         if neighborTotal blinker 5 2 2 = 3 then ON else OFF)) :=
  ⟨⟨by decide, by decide⟩,
   rule_table blinker 5 2 2 (by decide) (by decide) (by decide)⟩

/-- C2: on well-formed grids the code's neighbor total equals the
number of ALIVE cells among the 8 toroidally wrapped neighbor
positions; moreover on the 5×5 grid with a single ALIVE cell at
`(0, 0)` that cell is counted as a neighbor of exactly the cells
`(4,4), (4,0), (4,1), (0,4), (0,1), (1,4), (1,0), (1,1)`. -/
theorem neighbor_count_toroidal (g : Grid) (N i j : Nat)
    (hwf : WellFormed g N) (hi : i < N) (hj : j < N) :
    neighborTotal g N i j = countAliveNeighborsSpec g N i j ∧
    (∀ a, a < 5 → ∀ b, b < 5 →
      neighborTotal single5 5 a b =
        if (a, b) ∈ ([(4, 4), (4, 0), (4, 1), (0, 4), (0, 1), (1, 4),
                      (1, 0), (1, 1)] : List (Nat × Nat))
        then 1 else 0) :=
  ⟨neighborTotal_eq_spec g N i j hwf hi hj, by decide⟩

/-- Witness for C2 at the cell `(0, 1)` of the single-ALIVE 5×5 grid. -/
theorem neighbor_count_toroidal_witness :
    (WellFormed single5 5 ∧ (0 : Nat) < 5 ∧ (1 : Nat) < 5) ∧
    neighborTotal single5 5 0 1 = countAliveNeighborsSpec single5 5 0 1 :=
  ⟨⟨by decide, by decide, by decide⟩,
   (neighbor_count_toroidal single5 5 0 1 (by decide) (by decide)
     (by decide)).1⟩

/-- C3: `update` implements the fully buffered simultaneous step — each
cell's next state is computed only from the current generation — and on
the blinker, a grid where an unbuffered in-place cell-by-cell update
differs, `update` produces the buffered result (cell `(2, 1)` dies)
while the sequential-mutation update would produce a different one
(cell `(2, 1)` alive). -/
theorem update_is_buffered (g : Grid) (N : Nat) (hwf : WellFormed g N) :
    (∀ i j, update g N i j = stepSpec g N i j) ∧
    update blinker 5 2 1 = OFF ∧ updateSequential blinker 5 2 1 = ON :=
  ⟨update_eq_stepSpec g N hwf, by decide, by decide⟩

/-- Witness for C3 on the blinker grid. -/
theorem update_is_buffered_witness :
    WellFormed blinker 5 ∧
    update blinker 5 1 2 = stepSpec blinker 5 1 2 ∧
    update blinker 5 2 1 = OFF ∧ updateSequential blinker 5 2 1 = ON :=
  ⟨by decide, (update_is_buffered blinker 5 (by decide)).1 1 2,
   (update_is_buffered blinker 5 (by decide)).2.1,
   (update_is_buffered blinker 5 (by decide)).2.2⟩

/-- C4 counterexample: at dimension `N = 0` the code's `random_grid`
returns a grid without raising anything, so it does not fail with
`InvalidDimension` for `N ≤ 0` (and it has no probability parameter to
validate). -/
theorem random_grid_dim_zero_no_error :
    random_grid 0 (fun _ => false) ≠ Except.error LifeErr.invalidDimension ∧
    random_grid 0 (fun _ => false) ≠ Except.error LifeErr.invalidProbability :=
  ⟨fun h => Except.noConfusion h, fun h => Except.noConfusion h⟩

/-- C4 (amended): `random_grid` takes only the dimension `N` (the ON
probability is the fixed constant 0.2, not a parameter) and performs no
validation: for every `N` — including `N = 0` — it returns, without
error, a fully populated `N × N` grid of sentinel values. -/
theorem random_grid_no_validation (N : Nat) (draw : Nat → Bool) :
    ∃ g, random_grid N draw = Except.ok g ∧ WellFormed g N := by
  refine ⟨_, rfl, ?_⟩
  intro i _ j _
  by_cases hd : draw (i * N + j) <;> simp [hd]

/-- C5: when the 3×3 region fits, `add_glider` reports no error, writes
exactly the glider pattern `DEAD DEAD ALIVE / ALIVE DEAD ALIVE /
DEAD ALIVE ALIVE` into the region anchored at `(i, j)`, and leaves
every cell outside the region unchanged. -/
theorem add_glider_stamps (g : Grid) (N i j : Nat)
    (h : i + 3 ≤ N ∧ j + 3 ≤ N) :
    (add_glider i j g N).err = none ∧
    (∀ a b, a < 3 → b < 3 →
      (add_glider i j g N).grid (i + a) (j + b) = glider a b) ∧
    (∀ a b, ¬(i ≤ a ∧ a < i + 3 ∧ j ≤ b ∧ b < j + 3) →
      (add_glider i j g N).grid a b = g a b) ∧
    (glider 0 0 = OFF ∧ glider 0 1 = OFF ∧ glider 0 2 = ON ∧
     glider 1 0 = ON ∧ glider 1 1 = OFF ∧ glider 1 2 = ON ∧
     glider 2 0 = OFF ∧ glider 2 1 = ON ∧ glider 2 2 = ON) := by
  unfold add_glider
  rw [if_pos h]
  refine ⟨rfl, ?_, ?_, by decide⟩
  · intro a b ha hb
    dsimp only
    rw [if_pos (by omega : i ≤ i + a ∧ i + a < i + 3 ∧ j ≤ j + b ∧ j + b < j + 3)]
    rw [Nat.add_sub_cancel_left, Nat.add_sub_cancel_left]
  · intro a b hab
    dsimp only
    rw [if_neg hab]

/-- Witness for C5: stamping at `(1, 1)` on the all-DEAD 5×5 grid. -/
theorem add_glider_stamps_witness :
    (1 + 3 ≤ 5 ∧ 1 + 3 ≤ 5) ∧
    (add_glider 1 1 deadGrid 5).err = none ∧
    (add_glider 1 1 deadGrid 5).grid (1 + 1) (1 + 1) = glider 1 1 ∧
    (add_glider 1 1 deadGrid 5).grid 0 0 = deadGrid 0 0 :=
  ⟨by decide,
   (add_glider_stamps deadGrid 5 1 1 (by decide)).1,
   (add_glider_stamps deadGrid 5 1 1 (by decide)).2.1 1 1 (by decide)
     (by decide),
   (add_glider_stamps deadGrid 5 1 1 (by decide)).2.2.1 0 0 (by decide)⟩

/-- C6: when the 3×3 region would exceed the grid's dimensions,
`add_glider` fails with `OutOfBounds` and performs no partial stamping:
every cell is left exactly as it was. -/
theorem add_glider_oob (g : Grid) (N i j : Nat)
    (h : ¬(i + 3 ≤ N ∧ j + 3 ≤ N)) :
    (add_glider i j g N).err = some LifeErr.outOfBounds ∧
    ∀ a b, (add_glider i j g N).grid a b = g a b := by
  unfold add_glider
  rw [if_neg h]
  exact ⟨rfl, fun a b => rfl⟩

/-- Witness for C6: the spec's example, a 5×5 grid stamped at anchor
`(3, 3)`. -/
theorem add_glider_oob_witness :
    ¬(3 + 3 ≤ 5 ∧ 3 + 3 ≤ 5) ∧
    (add_glider 3 3 blinker 5).err = some LifeErr.outOfBounds ∧
    (add_glider 3 3 blinker 5).grid 2 2 = blinker 2 2 :=
  ⟨by decide, (add_glider_oob blinker 5 3 3 (by decide)).1,
   (add_glider_oob blinker 5 3 3 (by decide)).2 2 2⟩

/-- C7: every operation keeps the two-value invariant: grids produced
by `random_grid` hold only the two sentinels, `add_glider` preserves
the invariant, and `update` preserves it. -/
theorem two_value_invariant :
    (∀ (N : Nat) (draw : Nat → Bool) (g : Grid),
      random_grid N draw = Except.ok g → WellFormed g N) ∧
    (∀ (g : Grid) (N i j : Nat), WellFormed g N →
      WellFormed (add_glider i j g N).grid N) ∧
    (∀ (g : Grid) (N : Nat), WellFormed g N → WellFormed (update g N) N) :=
  ⟨random_grid_wf,
   fun g N i j hwf => add_glider_preserves_wf g N i j hwf,
   update_preserves_wf⟩

/-- Witness for C7 on concrete grids. -/
theorem two_value_invariant_witness :
    WellFormed (fun i j => if (fun (_ : Nat) => false) (i * 5 + j) then ON
      else OFF) 5 ∧
    WellFormed (add_glider 1 1 blinker 5).grid 5 ∧
    WellFormed (update blinker 5) 5 :=
  ⟨two_value_invariant.1 5 (fun _ => false) _ rfl,
   two_value_invariant.2.1 blinker 5 1 1 (by decide),
   two_value_invariant.2.2 blinker 5 (by decide)⟩

/-- C8: for `N = 1` the degenerate self-neighboring is preserved: all 8
wrapped neighbor positions of the single cell are `(0, 0)` itself, a
lone ALIVE cell has neighbor total 8 and dies, and a DEAD cell has
total 0 and stays DEAD. -/
theorem n1_self_neighbor (g : Grid) :
    neighborPositions 1 0 0 =
      [(0, 0), (0, 0), (0, 0), (0, 0), (0, 0), (0, 0), (0, 0), (0, 0)] ∧
    (g 0 0 = ON → neighborTotal g 1 0 0 = 8 ∧ update g 1 0 0 = OFF) ∧
    (g 0 0 = OFF → neighborTotal g 1 0 0 = 0 ∧ update g 1 0 0 = OFF) := by
  have hw : ∀ x : Int, wrap 1 x = 0 := by
    intro x; unfold wrap; rw [Nat.cast_one, Int.emod_one]; rfl
  refine ⟨by decide, ?_, ?_⟩
  · intro h
    have ht : neighborTotal g 1 0 0 = 8 := by
      unfold neighborTotal
      simp only [hw]
      rw [h]
      decide
    refine ⟨ht, ?_⟩
    rw [update_eq_rule g 1 0 0 (by decide) (by decide), if_pos h, ht,
      if_pos (by decide : (8 : Nat) < 2 ∨ (8 : Nat) > 3)]
  · intro h
    have ht : neighborTotal g 1 0 0 = 0 := by
      unfold neighborTotal
      simp only [hw]
      rw [h]
      decide
    refine ⟨ht, ?_⟩
    rw [update_eq_rule g 1 0 0 (by decide) (by decide),
      if_neg (by rw [h]; decide), ht,
      if_neg (by decide : ¬(0 : Nat) = 3), h]

/-- Witness for C8 on the all-ALIVE grid. -/
theorem n1_self_neighbor_witness :
    fullGrid 0 0 = ON ∧ neighborTotal fullGrid 1 0 0 = 8 ∧
    update fullGrid 1 0 0 = OFF :=
  ⟨rfl, ((n1_self_neighbor fullGrid).2.1 rfl).1,
   ((n1_self_neighbor fullGrid).2.1 rfl).2⟩

/-- C9: `update` is total and safe over well-formed grids: every
wrapped index is in bounds, every neighbor position it reads is inside
the `N × N` domain, and on a well-formed grid it yields a defined
sentinel value at every cell of the domain. -/
theorem update_total_safe (N : Nat) (hN : 0 < N) :
    (∀ x : Int, wrap N x < N) ∧
    (∀ i j, i < N → j < N →
      ∀ p ∈ neighborPositions N i j, p.1 < N ∧ p.2 < N) ∧
    (∀ g : Grid, WellFormed g N → ∀ i, i < N → ∀ j, j < N →
      update g N i j = ON ∨ update g N i j = OFF) :=
  ⟨wrap_lt N hN,
   fun i j hi hj => neighborPositions_bounds N i j hi hj,
   fun g hwf i hi j hj => update_preserves_wf g N hwf i hi j hj⟩

/-- Witness for C9 at `N = 5` on the blinker grid. -/
theorem update_total_safe_witness :
    (0 : Nat) < 5 ∧ wrap 5 (-1) < 5 ∧
    (update blinker 5 0 0 = ON ∨ update blinker 5 0 0 = OFF) :=
  ⟨by decide, (update_total_safe 5 (by decide)).1 (-1),
   (update_total_safe 5 (by decide)).2.2 blinker (by decide) 0 (by decide)
     0 (by decide)⟩

/-- C10: the all-DEAD grid is a fixed point of `update`: if every cell
of the `N × N` domain is DEAD then every cell is still DEAD after the
step. -/
theorem dead_grid_fixed (g : Grid) (N : Nat)
    (h : ∀ i, i < N → ∀ j, j < N → g i j = OFF) :
    ∀ i, i < N → ∀ j, j < N → update g N i j = OFF := by
  intro i hi j hj
  have hN : 0 < N := Nat.lt_of_le_of_lt (Nat.zero_le i) hi
  have e1 := h i hi _ (wrap_lt N hN ((j : Int) - 1))
  have e2 := h i hi _ (wrap_lt N hN ((j : Int) + 1))
  have e3 := h _ (wrap_lt N hN ((i : Int) - 1)) j hj
  have e4 := h _ (wrap_lt N hN ((i : Int) + 1)) j hj
  have e5 := h _ (wrap_lt N hN ((i : Int) - 1)) _ (wrap_lt N hN ((j : Int) - 1))
  have e6 := h _ (wrap_lt N hN ((i : Int) - 1)) _ (wrap_lt N hN ((j : Int) + 1))
  have e7 := h _ (wrap_lt N hN ((i : Int) + 1)) _ (wrap_lt N hN ((j : Int) - 1))
  have e8 := h _ (wrap_lt N hN ((i : Int) + 1)) _ (wrap_lt N hN ((j : Int) + 1))
  have ht : neighborTotal g N i j = 0 := by
    unfold neighborTotal
    rw [e1, e2, e3, e4, e5, e6, e7, e8]
    decide
  rw [update_eq_rule g N i j hi hj, if_neg (by rw [h i hi j hj]; decide), ht,
    if_neg (by decide : ¬(0 : Nat) = 3), h i hi j hj]

/-- Witness for C10 on the all-DEAD grid with `N = 3`. -/
theorem dead_grid_fixed_witness :
    deadGrid 1 1 = OFF ∧ update deadGrid 3 1 1 = OFF :=
  ⟨rfl,
   dead_grid_fixed deadGrid 3 (fun _ _ _ _ => rfl) 1 (by decide) 1
     (by decide)⟩

end LifeSim
